import Mathlib

/-!
Verification development for the content-tool generation backend
(`content-creation-backend`).  The definitions below are shallow embeddings of
the Python services in `src/services/keyframe_service.py`,
`src/services/video_service.py`, `src/services/image_generation_service.py`
and of the parser `src/utils/script_parser.py`.  Machine state (database rows)
is modelled by explicit lists of records; background jobs become pure
functions from their inputs (including an oracle for the answers of the
external generation service) to the updated records; Python exceptions become
`Except` values.
-/

/-! ## Data model (src/models/tables/keyframe.py, video_segment.py)

Timestamps are modelled as seconds (`Nat`); nullable columns as `Option`.
The float `duration` column is carried as a `Nat` number of seconds, the only
use the embedded claims make of it. -/

/-- Status enum of `keyframes.status` (class KeyframeStatus). -/
inductive KeyframeStatus
  | pending
  | generating
  | completed
  | failed
deriving DecidableEq, Repr, Inhabited

/-- Status enum of `video_segments.status` (class VideoStatus). -/
inductive VideoStatus
  | pending
  | generating
  | completed
  | failed
deriving DecidableEq, Repr, Inhabited

/-- Row of the `keyframes` table (class Keyframe). -/
structure Keyframe where
  id : Nat
  script_id : Nat
  segment_id : String
  image_url : Option String := none
  prompt : Option String := none
  status : KeyframeStatus := .pending
  error_message : Option String := none
  updated_at : Option Nat := none
deriving DecidableEq, Repr, Inhabited

/-- Row of the `video_segments` table (class VideoSegment). -/
structure VideoSegment where
  id : Nat
  script_id : Nat
  segment_index : Nat
  first_frame_url : Option String := none
  last_frame_url : Option String := none
  prompt : Option String := none
  video_url : Option String := none
  model : Option String := none
  aspect_ratio : Option String := none
  status : VideoStatus := .pending
  duration : Nat := 10
  error_message : Option String := none
  updated_at : Option Nat := none
deriving DecidableEq, Repr, Inhabited

/-- Error taxonomy of `src/utils/exceptions.py` as far as the claims use it:
`NotFoundError` and `ValidationError`. -/
inductive AppError
  | notFound (msg : String)
  | validation (msg : String)
deriving DecidableEq, Repr

/-- Whether an `AppError` is a `ValidationError`. -/
def AppError.isValidation : AppError → Bool
  | .validation _ => true
  | .notFound _ => false

/-- Whether an `AppError` is a `NotFoundError`. -/
def AppError.isNotFound : AppError → Bool
  | .notFound _ => true
  | .validation _ => false

/-! ## Keyframe background chain
(`KeyframeService._generate_keyframes_background`, keyframe_service.py 152-209)

The background unit walks the keyframe ids in creation order and calls
`_generate_single_keyframe_image_with_session` for each, passing
`previous_image_url` as the reference.  That helper returns the generated
URL on success and `None` on failure; the driver then runs
`if result_url: previous_image_url = result_url` — i.e. `previous_image_url`
is replaced only by a truthy (non-`None`, non-empty) result.  We embed the
outcome of each per-keyframe call as an oracle list `results : List (Option
String)` and compute the reference each successive call receives. -/

/-- Python truthiness of an `Optional[str]`: `None` and `''` are falsy. -/
def isTruthyStr : Option String → Bool
  | none => false
  | some s => !s.isEmpty

/-- References passed to each sequential keyframe generation call, given the
previous reference and the oracle of per-call results.  Mirrors the loop
`for i, keyframe_id in enumerate(keyframe_ids)` in
`_generate_keyframes_background`: element `i` is the `reference_image_url`
argument of call `i`. -/
def referencesPassed : Option String → List (Option String) → List (Option String)
  | _, [] => []
  | prev, r :: rs =>
      prev :: referencesPassed (if isTruthyStr r then r else prev) rs

/-- The value of `previous_image_url` after folding a list of call results
over an initial value: the most recent truthy result, if any. -/
def lastSuccess (prev : Option String) (results : List (Option String)) : Option String :=
  results.foldl (fun p r => if isTruthyStr r then r else p) prev

/-! ## Stale-job reaper
(`KeyframeService._refresh_stale_keyframes`, keyframe_service.py 668-697, and
`VideoService.get_video_segments_by_script`, video_service.py 514-530) -/

/-- `STALE_KEYFRAME_TIMEOUT = timedelta(minutes=5)`, in seconds. -/
def STALE_KEYFRAME_TIMEOUT : Nat := 300

/-- Per-row action of `_refresh_stale_keyframes`: a `generating` row whose
`updated_at` is present and strictly older than the timeout is flipped to
`failed` with the timeout message; every other row is left untouched. -/
def refreshStaleKeyframe (now : Nat) (kf : Keyframe) : Keyframe :=
  if kf.status = .generating then
    match kf.updated_at with
    | none => kf
    | some t =>
        if STALE_KEYFRAME_TIMEOUT < now - t then
          { kf with status := .failed
                    error_message := some "生成超时，请重新生成关键帧" }
        else kf
  else kf

/-- List-read of keyframes (`get_keyframes_by_script_id`): the rows of the
script in `created_at` order, after the reaper pass
`_refresh_stale_keyframes` over every row. -/
def get_keyframes_by_script_id (now : Nat) (rows : List Keyframe) : List Keyframe :=
  rows.map (refreshStaleKeyframe now)

/-- String lexicographic order on code points, the order `ORDER BY` uses on
the ASCII `segment_id` column. -/
def lexLe : List Char → List Char → Bool
  | [], _ => true
  | _ :: _, [] => false
  | a :: as, b :: bs =>
    if a.toNat < b.toNat then true
    else if b.toNat < a.toNat then false
    else lexLe as bs

/-- Lexicographic `≤` on strings (for `ORDER BY segment_id`). -/
def strLe (a b : String) : Bool := lexLe a.data b.data

/-- List-read of video segments (`get_video_segments_by_script`): the rows of
the script ordered by `segment_index`, with no status refresh of any kind —
the function body is a single `SELECT ... ORDER BY segment_index`. -/
def get_video_segments_by_script (rows : List VideoSegment) : List VideoSegment :=
  List.insertionSort (fun a b => a.segment_index ≤ b.segment_index) rows

/-! ## Submit/poll loops
(`ImageGenerationService.generate_image_nano_banana`,
image_generation_service.py 114-183; `VideoService._call_veo_api`,
video_service.py 479-512; `VideoService._call_sora_api`, 394-427)

Each loop polls `/v1/draw/result` at a fixed interval, at most 60 times, and
stops early on a terminal status.  A poll tick's decoded JSON answer is
embedded as a `PollResponse`; the network is an oracle `polls : Nat →
PollResponse` giving the answer of the `i`-th poll.  Exceptions are `.error`
values. -/

/-- Decoded body of one `/v1/draw/result` poll answer, covering the fields
the three loops read.  `results` models `data['results']` (a list of objects
whose `url` field may be absent), `url` models `data.get('url')`. -/
structure PollResponse where
  code : Int := 0
  msg : String := ""
  status : String := ""
  results : List (Option String) := []
  url : Option String := none
  error : Option String := none
  failure_reason : String := ""
deriving DecidableEq, Repr, Inhabited

/-- Poll loop of `generate_image_nano_banana` (`for i in range(max_polls)`,
`max_polls = 60`).  On `succeeded` the first element of `results` yields the
url (raising if the list is empty); on `failed` the recorded reason is
raised; any other status polls again; exhausting the bound raises
`'图片生成超时'`.  The `Option String` success value is `results[0].get('url')`,
which the code returns as-is. -/
def nanoBananaPollLoop (polls : Nat → PollResponse) : Nat → Nat → Except String (Option String)
  | 0, _ => .error "图片生成超时"
  | fuel + 1, i =>
    let r := polls i
    if r.code ≠ 0 then .error ("轮询错误: " ++ r.msg)
    else if r.status = "succeeded" then
      match r.results with
      | u :: _ => .ok u
      | [] => .error "生成成功但未返回图片URL"
    else if r.status = "failed" then
      .error (if r.failure_reason ≠ "" then "生成失败: " ++ r.failure_reason
              else "生成失败: " ++ (r.error.getD ""))
    else nanoBananaPollLoop polls fuel (i + 1)

/-- Entry point of the nano-banana poll phase: 60 attempts starting at poll 0. -/
def generate_image_nano_banana_poll (polls : Nat → PollResponse) : Except String (Option String) :=
  nanoBananaPollLoop polls 60 0

/-- Poll loop of `_call_veo_api` (`while attempt < max_attempts`,
`max_attempts = 60`).  On `succeeded` the url is `data.get('url')` (raising
if absent); on `failed` it raises with `data.get('error', '未知错误')`;
exhausting the bound raises `'视频生成超时'`. -/
def veoPollLoop (polls : Nat → PollResponse) : Nat → Nat → Except String String
  | 0, _ => .error "视频生成超时"
  | fuel + 1, i =>
    let r := polls i
    if r.code ≠ 0 then .error ("获取结果失败: " ++ r.msg)
    else if r.status = "succeeded" then
      match r.url with
      | some u => .ok u
      | none => .error "视频生成成功但未返回URL"
    else if r.status = "failed" then
      .error ("视频生成失败: " ++ r.error.getD "未知错误")
    else veoPollLoop polls fuel (i + 1)

/-- Entry point of the veo poll phase. -/
def call_veo_api_poll (polls : Nat → PollResponse) : Except String String :=
  veoPollLoop polls 60 0

/-- Poll loop of `_call_sora_api` — as the veo loop, except that on
`succeeded` the url comes from `results[0]['url']` and must be truthy
(`if results and results[0].get('url')`). -/
def soraPollLoop (polls : Nat → PollResponse) : Nat → Nat → Except String String
  | 0, _ => .error "视频生成超时"
  | fuel + 1, i =>
    let r := polls i
    if r.code ≠ 0 then .error ("获取结果失败: " ++ r.msg)
    else if r.status = "succeeded" then
      match r.results with
      | u :: _ => if isTruthyStr u then .ok (u.getD "") else .error "视频生成成功但未返回URL"
      | [] => .error "视频生成成功但未返回URL"
    else if r.status = "failed" then
      .error ("视频生成失败: " ++ r.error.getD "未知错误")
    else soraPollLoop polls fuel (i + 1)

/-- Entry point of the sora poll phase. -/
def call_sora_api_poll (polls : Nat → PollResponse) : Except String String :=
  soraPollLoop polls 60 0

/-- A poll answer that keeps the loop going: accepted (`code == 0`) and
neither `succeeded` nor `failed`. -/
def PollResponse.nonTerminal (r : PollResponse) : Prop :=
  r.code = 0 ∧ r.status ≠ "succeeded" ∧ r.status ≠ "failed"

/-- Terminal update of one video segment row, the `except` handler and the
success tail of `_generate_single_video_with_session` (video_service.py
264-295): success stores the re-hosted url and `COMPLETED`; any raised
exception is stored as `FAILED` with its message. -/
def finishVideoSegment (vs : VideoSegment) : Except String String → VideoSegment
  | .ok url => { vs with video_url := some url, status := .completed, error_message := none }
  | .error e => { vs with status := .failed, error_message := some e }

/-- Terminal update of one keyframe row inside
`_generate_single_keyframe_image_with_session` (keyframe_service.py
323-380): success stores the uploaded url and `COMPLETED`; any raised
exception is stored as `FAILED` with its message. -/
def finishKeyframe (kf : Keyframe) : Except String String → Keyframe
  | .ok url => { kf with image_url := some url, status := .completed, error_message := none }
  | .error e => { kf with status := .failed, error_message := some e }

/-! ## Vendor dispatch for video submission
(`VideoService._call_video_generation_api`, video_service.py 304-342, with the
payload construction of `_call_sora_api` 370-381 and `_call_veo_api` 455-466)

The dispatch keys on the model-name string: a model starting with `sora` goes
to the sora endpoint, which receives only the segment's last-frame url as the
single reference (`reference_url = last_frame_url`; the payload's `url` field
is set only when that reference is truthy, and the payload has no first-frame
field at all); a model starting with `veo` goes to the veo endpoint, whose
payload carries `firstFrameUrl`/`lastFrameUrl`, each set only when truthy;
any other model name raises `'不支持的模型: ...'`. -/

/-- Python `str.startswith`, as a character-prefix test. -/
def strStartsWith (s pre : String) : Bool := List.isPrefixOf pre.data s.data

/-- Python `str.endswith`, as a character-suffix test. -/
def strEndsWith (s sfx : String) : Bool := List.isSuffixOf sfx.data s.data

/-- Normalises an optional string to the field actually placed in the JSON
payload: present only when truthy (`if reference_url:` / `if
first_frame_url:`). -/
def payloadField (u : Option String) : Option String :=
  if isTruthyStr u then u else none

/-- Submit payload sent to the third-party video API, by vendor protocol. -/
inductive VideoSubmitPayload
  | sora (model prompt aspectRatio : String) (duration : Nat) (url : Option String)
  | veo (model prompt aspectRatio : String) (firstFrameUrl lastFrameUrl : Option String)
deriving DecidableEq, Repr

/-- Payload construction of `_call_video_generation_api`: the branch on
`model.startswith(...)` and the body of the chosen `_call_*_api` up to the
HTTP post.  `apiKeyPresent` is the `if not self.api_key` guard. -/
def call_video_generation_api (apiKeyPresent : Bool) (model prompt : String)
    (first_frame_url last_frame_url : Option String) (aspect_ratio : String)
    (duration : Nat) : Except String VideoSubmitPayload :=
  if !apiKeyPresent then .error "GRSAI API密钥未配置"
  else if strStartsWith model "sora" then
    .ok (.sora model prompt aspect_ratio duration (payloadField last_frame_url))
  else if strStartsWith model "veo" then
    .ok (.veo model prompt aspect_ratio (payloadField first_frame_url)
          (payloadField last_frame_url))
  else .error ("不支持的模型: " ++ model)

/-! ## Video generation pipeline
(`VideoService.generate_videos`, video_service.py 41-181)

The request handler runs, in this order: look the script up (`NotFoundError`
if absent); delete and commit away every existing video segment of the
script; select the script's `COMPLETED` keyframes `ORDER BY segment_id`;
raise `ValidationError` if none; split off the "normal" keyframes (those
whose `segment_id` ends in neither `_first_frame` nor `_last_frame`) and
raise `ValidationError` if none; look the opening keyframe
`<first normal id>_first_frame` up in the keyframe dict and raise
`ValidationError('缺少首帧关键帧: ...')` if absent; build one config per
normal keyframe and insert the rows in `GENERATING` state.

The embedding returns both the call's result and the post-state of the
script's video-segment store, so the deletion timing is observable. -/

/-- Spec of one video segment row before insertion (the dict literals pushed
onto `video_configs`). -/
structure VideoConfig where
  segment_index : Nat
  first_frame_url : Option String
  last_frame_url : Option String
  prompt : String
deriving DecidableEq, Repr, Inhabited

/-- Whether a keyframe is a "normal" (body) keyframe: its `segment_id` has
neither the `_first_frame` nor the `_last_frame` suffix. -/
def isNormalKeyframe (kf : Keyframe) : Bool :=
  !strEndsWith kf.segment_id "_first_frame" && !strEndsWith kf.segment_id "_last_frame"

/-- The script's `COMPLETED` keyframes ordered by `segment_id` (the SELECT of
generate_videos, lines 90-97). -/
def completedKeyframes (kfs : List Keyframe) : List Keyframe :=
  List.insertionSort (fun a b => strLe a.segment_id b.segment_id = true)
    (kfs.filter (fun kf => kf.status == .completed))

/-- Lookup in `keyframe_map = {kf.segment_id: kf for kf in keyframes}`: a
later duplicate key overwrites an earlier one, hence the reversed search. -/
def keyframeMapLookup (completed : List Keyframe) (sid : String) : Option Keyframe :=
  completed.reverse.find? (fun kf => kf.segment_id == sid)

/-- The trailing configs built by `for i in range(len(normal_segments) - 1)`:
one config per consecutive pair, pairing `normal[i] → normal[i+1]` with the
destination's prompt, at the running `segment_index`. -/
def chainConfigs : Nat → List Keyframe → List VideoConfig
  | idx, cur :: next :: rest =>
      { segment_index := idx
        first_frame_url := cur.image_url
        last_frame_url := next.image_url
        prompt := next.prompt.getD "" } :: chainConfigs (idx + 1) (next :: rest)
  | _, _ => []

/-- Config-building phase of `generate_videos` (lines 102-145), from the
ordered completed keyframes. -/
def buildVideoConfigs (completed : List Keyframe) : Except AppError (List VideoConfig) :=
  match completed.filter isNormalKeyframe with
  | [] => .error (.validation "脚本没有有效的段落关键帧")
  | first :: rest =>
    let key := first.segment_id ++ "_first_frame"
    match keyframeMapLookup completed key with
    | none => .error (.validation ("缺少首帧关键帧: " ++ key))
    | some ff =>
      .ok ({ segment_index := 0
             first_frame_url := ff.image_url
             last_frame_url := first.image_url
             prompt := first.prompt.getD "" } :: chainConfigs 1 (first :: rest))

/-- Row inserted for one config (lines 149-162): `GENERATING`, urls and
prompt from the config, request-level model/aspect-ratio/duration. -/
def mkVideoRow (script_id : Nat) (model aspect_ratio : String) (duration : Nat)
    (c : VideoConfig) : VideoSegment :=
  { id := c.segment_index
    script_id := script_id
    segment_index := c.segment_index
    first_frame_url := c.first_frame_url
    last_frame_url := c.last_frame_url
    prompt := some c.prompt
    model := some model
    aspect_ratio := some aspect_ratio
    duration := duration
    status := .generating }

/-- The `generate_videos` request handler.  Arguments: whether the script row
exists, the stored keyframes of the script, the stored video segments of the
script, and the request parameters.  Returns the synchronous result together
with the post-state of the script's video-segment rows. -/
def generate_videos (scriptExists : Bool) (script_id : Nat) (kfs : List Keyframe)
    (existing : List VideoSegment) (model aspect_ratio : String) (duration : Nat) :
    Except AppError (List VideoSegment) × List VideoSegment :=
  if !scriptExists then (.error (.notFound "脚本不存在"), existing)
  else
    -- delete + commit of the old segments happens here, before the keyframe SELECT
    let completed := completedKeyframes kfs
    if completed.isEmpty then (.error (.validation "脚本没有已完成的关键帧"), [])
    else
      match buildVideoConfigs completed with
      | .error e => (.error e, [])
      | .ok configs =>
        let rows := configs.map (mkVideoRow script_id model aspect_ratio duration)
        (.ok rows, rows)

/-! ## Script segmenter (`parse_script`, src/utils/script_parser.py 57-194)

The parser is regex-driven.  The regexes are embedded as explicit character
scanners with the same matching semantics on the relevant alternation:

* `time_pattern = (?:\((\d+:\d+)\s*-\s*(\d+:\d+)\)|\((\d+)-(\d+)s\)|^(\d+)-(\d+)s\s)`
  scanned with `re.finditer(..., re.MULTILINE)`;
* `frame_0_pattern`, three `^`-anchored alternatives searched with
  `re.search(..., re.MULTILINE | re.DOTALL)`.

Positions are character indices; `^` matches at index 0 and after a
newline. -/

/-- Python regex `\s` / `str.strip` whitespace: space, tab, newline,
carriage return, vertical tab, form feed. -/
def pyWS (c : Char) : Bool :=
  c == ' ' || c == '\t' || c == '\n' || c == '\r' || c == '\x0b' || c == '\x0c'

/-- Python `str.strip()`. -/
def pyStrip (s : String) : String :=
  String.mk (((s.data.dropWhile pyWS).reverse.dropWhile pyWS).reverse)

/-- Value of a digit group, as `int(...)` reads it. -/
def digitsToNat (cs : List Char) : Nat :=
  cs.foldl (fun a c => a * 10 + (c.toNat - 48)) 0

/-- Python format `{n:02d}`. -/
def pad2 (n : Nat) : String :=
  if n < 10 then "0" ++ toString n else toString n

/-- Seconds rendered as the parser's `M:SS` text:
`f'0:{s:02d}' if s < 60 else f'{s // 60}:{s % 60:02d}'`. -/
def fmtSec (n : Nat) : String :=
  if n < 60 then "0:" ++ pad2 n else toString (n / 60) ++ ":" ++ pad2 (n % 60)

/-- Alternative 1 of `time_pattern`: `\((\d+:\d+)\s*-\s*(\d+:\d+)\)`.
Returns (consumed length, group texts). -/
def matchTimeAlt1 (cs : List Char) : Option (Nat × String × String) :=
  match cs with
  | '(' :: r0 =>
    let d1 := r0.takeWhile Char.isDigit
    let r1 := r0.dropWhile Char.isDigit
    if d1.isEmpty then none else
    match r1 with
    | ':' :: r2 =>
      let d2 := r2.takeWhile Char.isDigit
      let r3 := r2.dropWhile Char.isDigit
      if d2.isEmpty then none else
      let w1 := r3.takeWhile pyWS
      match r3.dropWhile pyWS with
      | '-' :: r4 =>
        let w2 := r4.takeWhile pyWS
        let r5 := r4.dropWhile pyWS
        let d3 := r5.takeWhile Char.isDigit
        let r6 := r5.dropWhile Char.isDigit
        if d3.isEmpty then none else
        match r6 with
        | ':' :: r7 =>
          let d4 := r7.takeWhile Char.isDigit
          let r8 := r7.dropWhile Char.isDigit
          if d4.isEmpty then none else
          match r8 with
          | ')' :: _ =>
            some (d1.length + d2.length + w1.length + w2.length + d3.length + d4.length + 5,
              String.mk d1 ++ ":" ++ String.mk d2,
              String.mk d3 ++ ":" ++ String.mk d4)
          | _ => none
        | _ => none
      | _ => none
    | _ => none
  | _ => none

/-- Alternative 2 of `time_pattern`: `\((\d+)-(\d+)s\)`, seconds converted to
`M:SS` text by the `elif match.group(3)` branch. -/
def matchTimeAlt2 (cs : List Char) : Option (Nat × String × String) :=
  match cs with
  | '(' :: r0 =>
    let d1 := r0.takeWhile Char.isDigit
    let r1 := r0.dropWhile Char.isDigit
    if d1.isEmpty then none else
    match r1 with
    | '-' :: r2 =>
      let d2 := r2.takeWhile Char.isDigit
      let r3 := r2.dropWhile Char.isDigit
      if d2.isEmpty then none else
      match r3 with
      | 's' :: ')' :: _ =>
        some (d1.length + d2.length + 4, fmtSec (digitsToNat d1), fmtSec (digitsToNat d2))
      | _ => none
    | _ => none
  | _ => none

/-- Alternative 3 of `time_pattern`: `^(\d+)-(\d+)s\s` (line-anchored; the
trailing whitespace character is part of the match). -/
def matchTimeAlt3 (cs : List Char) : Option (Nat × String × String) :=
  let d1 := cs.takeWhile Char.isDigit
  let r1 := cs.dropWhile Char.isDigit
  if d1.isEmpty then none else
  match r1 with
  | '-' :: r2 =>
    let d2 := r2.takeWhile Char.isDigit
    let r3 := r2.dropWhile Char.isDigit
    if d2.isEmpty then none else
    match r3 with
    | 's' :: w :: _ =>
      if pyWS w then
        some (d1.length + d2.length + 3, fmtSec (digitsToNat d1), fmtSec (digitsToNat d2))
      else none
    | _ => none
  | _ => none

/-- One attempt of `time_pattern` at a position: the alternatives in the
pattern's order, the third one only at a line start. -/
def matchTimeAt (cs : List Char) (lineStart : Bool) : Option (Nat × String × String) :=
  match matchTimeAlt1 cs with
  | some m => some m
  | none =>
    match matchTimeAlt2 cs with
    | some m => some m
    | none => if lineStart then matchTimeAlt3 cs else none

/-- One `re.finditer` match of `time_pattern`: character span and the two
rendered times. -/
structure TimeMatch where
  startPos : Nat
  endPos : Nat
  startTime : String
  endTime : String
deriving DecidableEq, Repr, Inhabited

/-- The `re.finditer(time_pattern, ..., re.MULTILINE)` scan: leftmost
non-overlapping matches, resuming after each match's end. -/
def scanTimes : Nat → List Char → Nat → Bool → List TimeMatch
  | 0, _, _, _ => []
  | _ + 1, [], _, _ => []
  | fuel + 1, c :: rest, pos, lineStart =>
    match matchTimeAt (c :: rest) lineStart with
    | some (len, st, en) =>
      { startPos := pos, endPos := pos + len, startTime := st, endTime := en } ::
        scanTimes fuel ((c :: rest).drop len) (pos + len)
          (((c :: rest).take len).getLast? == some '\n')
    | none => scanTimes fuel rest (pos + 1) (c == '\n')

/-- All `time_pattern` matches of a script (`matches = list(re.finditer(...))`). -/
def findTimeMatches (s : String) : List TimeMatch :=
  scanTimes s.data.length s.data 0 true

/-- The `re.sub(time_pattern, '', ...)` pass applied to a segment's content:
every scanner match is deleted. -/
def eraseTimes : Nat → List Char → Bool → List Char
  | 0, cs, _ => cs
  | _ + 1, [], _ => []
  | fuel + 1, c :: rest, lineStart =>
    match matchTimeAt (c :: rest) lineStart with
    | some (len, _, _) =>
        eraseTimes fuel ((c :: rest).drop len)
          (((c :: rest).take len).getLast? == some '\n')
    | none => c :: eraseTimes fuel rest (c == '\n')

/-- The `re.sub(r'\n\s*\n+', '\n\n', ...)` pass: a newline whose following
whitespace run holds at least one further newline is collapsed, with the
match extending to the last newline of the run. -/
def collapseBlankAux : Nat → List Char → List Char
  | 0, cs => cs
  | _ + 1, [] => []
  | fuel + 1, c :: rest =>
    if c == '\n' then
      let ws := rest.takeWhile pyWS
      if ws.contains '\n' then
        let k := ws.length - (ws.reverse.takeWhile (fun x => x ≠ '\n')).length
        '\n' :: '\n' :: collapseBlankAux fuel (rest.drop k)
      else c :: collapseBlankAux fuel rest
    else c :: collapseBlankAux fuel rest

/-- String-level wrapper of `collapseBlankAux`. -/
def collapseBlank (s : String) : String :=
  String.mk (collapseBlankAux s.data.length s.data)

/-- Drops an expected literal from the front, the sequencing of literal
characters inside a regex alternative. -/
def dropLit : List Char → List Char → Option (List Char)
  | [], cs => some cs
  | l :: ls, c :: cs => if c == l then dropLit ls cs else none
  | _ :: _, [] => none

/-- Shared tail `[：:]\s*(.+?)(?=\n|$)` of the first two `frame_0_pattern`
alternatives: a colon, skipped whitespace, then the rest of the line.  When
only whitespace remains to the end of the string the regex can still match
with whitespace as the group, which the caller's `.strip()` then empties —
equivalent to `none` here, since no later alternative start survives inside
pure whitespace. -/
def frame0ColonTail (cs : List Char) : Option String :=
  match cs with
  | c :: rest =>
    if c == '：' || c == ':' then
      let r := rest.dropWhile pyWS
      let content := r.takeWhile (fun x => x ≠ '\n')
      if content.isEmpty then none else some (String.mk content)
    else none
  | [] => none

/-- Alternative 1 of `frame_0_pattern`: `^第0帧[：:]\s*(.+?)(?=\n|$)`. -/
def frame0Alt1 (cs : List Char) : Option String :=
  match dropLit ['第', '0', '帧'] cs with
  | some r => frame0ColonTail r
  | none => none

/-- Alternative 2 of `frame_0_pattern`:
`^\(0:00\s*-\s*0:00\)\s*开场画面[：:]\s*(.+?)(?=\n|$)`. -/
def frame0Alt2 (cs : List Char) : Option String :=
  match dropLit ['(', '0', ':', '0', '0'] cs with
  | none => none
  | some r1 =>
    match dropLit ['-'] (r1.dropWhile pyWS) with
    | none => none
    | some r2 =>
      match dropLit ['0', ':', '0', '0', ')'] (r2.dropWhile pyWS) with
      | none => none
      | some r3 =>
        match dropLit ['开', '场', '画', '面'] (r3.dropWhile pyWS) with
        | some r4 => frame0ColonTail r4
        | none => none

/-- Lookahead `(?=\n\d+-\d+s|\n\(|\Z)` of the third `frame_0_pattern`
alternative. -/
def frame0Alt3Stop (cs : List Char) : Bool :=
  match cs with
  | [] => true
  | '\n' :: t =>
    match t with
    | '(' :: _ => true
    | _ =>
      let d1 := t.takeWhile Char.isDigit
      let r1 := t.dropWhile Char.isDigit
      if d1.isEmpty then false else
      match r1 with
      | '-' :: r2 =>
        let d2 := r2.takeWhile Char.isDigit
        match r2.dropWhile Char.isDigit with
        | 's' :: _ => !d2.isEmpty
        | _ => false
      | _ => false
  | _ => false

/-- Minimal split of the lazy `.+?` of the third alternative: the least
`e ≥ e0` at which the lookahead holds (falling back to the full residue —
`\Z` holds there). -/
def frame0Alt3End : Nat → Nat → List Char → Nat
  | 0, e, _ => e
  | fuel + 1, e, cs =>
    if frame0Alt3Stop cs then e
    else match cs with
      | [] => e
      | _ :: t => frame0Alt3End fuel (e + 1) t

/-- Alternative 3 of `frame_0_pattern`:
`^(开场画面[：:]\s*.+?)(?=\n\d+-\d+s|\n\(|\Z)`.  The group keeps the marker
text itself.  `\s*` is committed greedily before the lazy `.+?` looks for the
nearest lookahead position, so the first candidate end lies strictly beyond
the whitespace run; when nothing follows the run, backtracking hands the
whitespace to `.+?` and the group runs to the end of the string. -/
def frame0Alt3 (cs : List Char) : Option String :=
  match dropLit ['开', '场', '画', '面'] cs with
  | none => none
  | some r0 =>
    match r0 with
    | c :: r =>
      if c == '：' || c == ':' then
        if r.isEmpty then none
        else
          let w := r.takeWhile pyWS
          let body := r.dropWhile pyWS
          let prefixLen := cs.length - r.length
          if body.isEmpty then
            some (String.mk cs)
          else
            let e := frame0Alt3End body.length 1 (body.drop 1)
            some (String.mk (cs.take (prefixLen + w.length + e)))
      else none
    | [] => none

/-- One `re.search` attempt of `frame_0_pattern` at a line start: the three
alternatives in the pattern's order. -/
def frame0TryAt (cs : List Char) : Option String :=
  match frame0Alt1 cs with
  | some g => some g
  | none =>
    match frame0Alt2 cs with
    | some g => some g
    | none => frame0Alt3 cs

/-- The `re.search(frame_0_pattern, ..., re.MULTILINE | re.DOTALL)` scan:
the leftmost line start carrying a match wins. -/
def findFrame0Aux : Nat → List Char → Bool → Option String
  | 0, _, _ => none
  | _ + 1, [], _ => none
  | fuel + 1, c :: rest, lineStart =>
    match (if lineStart then frame0TryAt (c :: rest) else none) with
    | some g => some g
    | none => findFrame0Aux fuel rest (c == '\n')

/-- Raw group text of the frame-0 search over a script, if any. -/
def findFrame0 (s : String) : Option String :=
  findFrame0Aux s.data.length s.data true

/-- Parsed segment record (class ScriptSegment, script_parser.py 13-54). -/
structure ScriptSegment where
  segment_id : String
  time_range : String
  content : String
  is_first : Bool := false
  is_last : Bool := false
  is_frame_0 : Bool := false
deriving DecidableEq, Repr, Inhabited

/-- Body of the `for i, match in enumerate(matches)` loop (script_parser.py
123-184): slices from each match's end to the next match's start (or the end
of the text), then `strip` / remove embedded `time_pattern` matches / `strip`
/ collapse blank lines / `strip`. -/
def buildMatchSegments (content : List Char) : Nat → List TimeMatch → List ScriptSegment
  | _, [] => []
  | i, m :: rest =>
    let segEnd := match rest with
      | [] => content.length
      | m2 :: _ => m2.startPos
    let raw := String.mk ((content.drop m.endPos).take (segEnd - m.endPos))
    let c1 := pyStrip raw
    let c2 := pyStrip (String.mk (eraseTimes c1.data.length c1.data true))
    let c3 := pyStrip (collapseBlank c2)
    { segment_id := "segment_" ++ toString i
      time_range := m.startTime ++ " - " ++ m.endTime
      content := c3
      is_first := i == 0
      is_last := rest.isEmpty } :: buildMatchSegments content (i + 1) rest

/-- The parser `parse_script` (script_parser.py 57-194). -/
def parse_script (script_content : String) : List ScriptSegment :=
  if (pyStrip script_content).isEmpty then []
  else
    let fSegs : List ScriptSegment :=
      match findFrame0 script_content with
      | some g =>
        let c := pyStrip g
        if c.isEmpty then []
        else
          [{ segment_id := "frame_0", time_range := "0:00 - 0:00", content := c,
             is_frame_0 := true }]
      | none => []
    match findTimeMatches script_content with
    | [] =>
      if !fSegs.isEmpty then fSegs
      else
        [{ segment_id := "segment_0", time_range := "",
           content := pyStrip script_content, is_first := true, is_last := true }]
    | m :: ms => fSegs ++ buildMatchSegments script_content.data 0 (m :: ms)

/-! ## Keyframe generation request
(`KeyframeService.generate_keyframes`, keyframe_service.py 41-150)

After the script lookup and the `if not script.content` validation, the
handler parses the script, deletes the old keyframes, creates the frame-0 row
first (if a frame-0 segment was parsed) under the derived id
`<first normal segment id>_first_frame`, then one row per non-frame-0 segment
in parse order, all in `GENERATING` state. -/

/-- Keyframe row as created by `generate_keyframes` (id/script assigned by
the store and irrelevant to the claims). -/
structure KeyframeNew where
  segment_id : String
  prompt : String
  status : KeyframeStatus
deriving DecidableEq, Repr, Inhabited

/-- The `generate_keyframes` request handler over a script's content,
returning the created rows in creation order. -/
def generate_keyframes (content : String) : Except AppError (List KeyframeNew) :=
  if content = "" then .error (.validation "脚本内容为空")
  else
    let segments := parse_script content
    if segments.isEmpty then .error (.validation "脚本中没有找到有效段落")
    else
      match segments.filter (fun s => !s.is_frame_0) with
      | [] => .error (.validation "脚本中没有有效的段落")
      | n0 :: ns =>
        let headRows : List KeyframeNew :=
          match segments.find? (fun s => s.is_frame_0) with
          | some f0 =>
            [{ segment_id := n0.segment_id ++ "_first_frame", prompt := f0.content,
               status := .generating }]
          | none => []
        .ok (headRows ++
          (n0 :: ns).map (fun s =>
            { segment_id := s.segment_id, prompt := s.content, status := .generating }))

/-- Sample stale keyframe row used by the reaper claims. -/
def staleKeyframeRow : Keyframe :=
  { id := 1, script_id := 1, segment_id := "segment_0",
    status := .generating, updated_at := some 0 }

/-- Sample stale video segment row used by the reaper claims. -/
def staleVideoRow : VideoSegment :=
  { id := 1, script_id := 1, segment_index := 0,
    status := .generating, updated_at := some 0 }

/-- Sample pre-existing video segment for the deletion-ordering claims. -/
def oldVideoRow : VideoSegment :=
  { id := 7, script_id := 1, segment_index := 0, status := .completed,
    video_url := some "old.mp4" }

/-- Sample completed body keyframe without an opening-frame companion. -/
def bodyOnlyKeyframe : Keyframe :=
  { id := 1, script_id := 1, segment_id := "segment_0",
    image_url := some "u0", prompt := some "p0", status := .completed }

/-- Completed opening-frame keyframe of the sample chain. -/
def kfOpening : Keyframe :=
  { id := 1, script_id := 1, segment_id := "segment_0_first_frame",
    image_url := some "uf", prompt := some "pf", status := .completed }

/-- First completed body keyframe of the sample chain. -/
def kfBody0 : Keyframe :=
  { id := 2, script_id := 1, segment_id := "segment_0",
    image_url := some "u0", prompt := some "p0", status := .completed }

/-- Second completed body keyframe of the sample chain. -/
def kfBody1 : Keyframe :=
  { id := 3, script_id := 1, segment_id := "segment_1",
    image_url := some "u1", prompt := some "p1", status := .completed }

/-- An oracle that answers an accepted, still-pending response forever. -/
def pendingOracle : Nat → PollResponse := fun _ => {}

/-- Store of one opening-frame keyframe plus eleven completed body keyframes
`segment_0 .. segment_10`, keyframe `segment_i` carrying image url `u<i>`. -/
def elevenSegmentStore : List Keyframe :=
  [{ id := 0, script_id := 1, segment_id := "segment_0_first_frame",
     image_url := some "uf", prompt := some "pf", status := .completed },
   { id := 1, script_id := 1, segment_id := "segment_0",
     image_url := some "u0", prompt := some "p0", status := .completed },
   { id := 2, script_id := 1, segment_id := "segment_1",
     image_url := some "u1", prompt := some "p1", status := .completed },
   { id := 3, script_id := 1, segment_id := "segment_2",
     image_url := some "u2", prompt := some "p2", status := .completed },
   { id := 4, script_id := 1, segment_id := "segment_3",
     image_url := some "u3", prompt := some "p3", status := .completed },
   { id := 5, script_id := 1, segment_id := "segment_4",
     image_url := some "u4", prompt := some "p4", status := .completed },
   { id := 6, script_id := 1, segment_id := "segment_5",
     image_url := some "u5", prompt := some "p5", status := .completed },
   { id := 7, script_id := 1, segment_id := "segment_6",
     image_url := some "u6", prompt := some "p6", status := .completed },
   { id := 8, script_id := 1, segment_id := "segment_7",
     image_url := some "u7", prompt := some "p7", status := .completed },
   { id := 9, script_id := 1, segment_id := "segment_8",
     image_url := some "u8", prompt := some "p8", status := .completed },
   { id := 10, script_id := 1, segment_id := "segment_9",
     image_url := some "u9", prompt := some "p9", status := .completed },
   { id := 11, script_id := 1, segment_id := "segment_10",
     image_url := some "u10", prompt := some "p10", status := .completed }]

/-! ## Theorems

Helper lemmas first, then the claim theorems with their witnesses and
counterexamples. -/

theorem referencesPassed_length (prev : Option String)
    (results : List (Option String)) :
    (referencesPassed prev results).length = results.length := by
  induction results generalizing prev with
  | nil => rfl
  | cons r rs ih => simp [referencesPassed, ih]

theorem referencesPassed_getElem? (prev : Option String)
    (results : List (Option String)) (i : Nat) (h : i < results.length) :
    (referencesPassed prev results)[i]?
      = some (lastSuccess prev (results.take i)) := by
  induction results generalizing prev i with
  | nil => simp at h
  | cons r rs ih =>
    cases i with
    | zero => simp [referencesPassed, lastSuccess]
    | succ j =>
      simp only [referencesPassed, List.getElem?_cons_succ, List.take_succ_cons]
      rw [ih _ j (by simpa using h)]
      simp [lastSuccess]

theorem nanoBananaPollLoop_congr (f g : Nat → PollResponse) (fuel i : Nat)
    (h : ∀ j, i ≤ j → j < i + fuel → f j = g j) :
    nanoBananaPollLoop f fuel i = nanoBananaPollLoop g fuel i := by
  induction fuel generalizing i with
  | zero => rfl
  | succ fuel ih =>
    have hi : f i = g i := h i (Nat.le_refl i) (by omega)
    simp only [nanoBananaPollLoop, hi]
    rw [ih (i + 1) (fun j h1 h2 => h j (by omega) (by omega))]

theorem veoPollLoop_congr (f g : Nat → PollResponse) (fuel i : Nat)
    (h : ∀ j, i ≤ j → j < i + fuel → f j = g j) :
    veoPollLoop f fuel i = veoPollLoop g fuel i := by
  induction fuel generalizing i with
  | zero => rfl
  | succ fuel ih =>
    have hi : f i = g i := h i (Nat.le_refl i) (by omega)
    simp only [veoPollLoop, hi]
    rw [ih (i + 1) (fun j h1 h2 => h j (by omega) (by omega))]

theorem soraPollLoop_congr (f g : Nat → PollResponse) (fuel i : Nat)
    (h : ∀ j, i ≤ j → j < i + fuel → f j = g j) :
    soraPollLoop f fuel i = soraPollLoop g fuel i := by
  induction fuel generalizing i with
  | zero => rfl
  | succ fuel ih =>
    have hi : f i = g i := h i (Nat.le_refl i) (by omega)
    simp only [soraPollLoop, hi]
    rw [ih (i + 1) (fun j h1 h2 => h j (by omega) (by omega))]

theorem nanoBananaPollLoop_timeout (f : Nat → PollResponse) (fuel i : Nat)
    (h : ∀ j, i ≤ j → j < i + fuel → (f j).nonTerminal) :
    nanoBananaPollLoop f fuel i = .error "图片生成超时" := by
  induction fuel generalizing i with
  | zero => rfl
  | succ fuel ih =>
    obtain ⟨h0, h1, h2⟩ := h i (Nat.le_refl i) (by omega)
    simp only [nanoBananaPollLoop, h0, h1, h2]
    simp only [ne_eq, not_true_eq_false, if_false, if_neg h1, if_neg h2]
    exact ih (i + 1) (fun j hj1 hj2 => h j (by omega) (by omega))

theorem veoPollLoop_timeout (f : Nat → PollResponse) (fuel i : Nat)
    (h : ∀ j, i ≤ j → j < i + fuel → (f j).nonTerminal) :
    veoPollLoop f fuel i = .error "视频生成超时" := by
  induction fuel generalizing i with
  | zero => rfl
  | succ fuel ih =>
    obtain ⟨h0, h1, h2⟩ := h i (Nat.le_refl i) (by omega)
    simp only [veoPollLoop, h0, h1, h2]
    simp only [ne_eq, not_true_eq_false, if_false, if_neg h1, if_neg h2]
    exact ih (i + 1) (fun j hj1 hj2 => h j (by omega) (by omega))

theorem soraPollLoop_timeout (f : Nat → PollResponse) (fuel i : Nat)
    (h : ∀ j, i ≤ j → j < i + fuel → (f j).nonTerminal) :
    soraPollLoop f fuel i = .error "视频生成超时" := by
  induction fuel generalizing i with
  | zero => rfl
  | succ fuel ih =>
    obtain ⟨h0, h1, h2⟩ := h i (Nat.le_refl i) (by omega)
    simp only [soraPollLoop, h0, h1, h2]
    simp only [ne_eq, not_true_eq_false, if_false, if_neg h1, if_neg h2]
    exact ih (i + 1) (fun j hj1 hj2 => h j (by omega) (by omega))

theorem chainConfigs_length (idx : Nat) (l : List Keyframe) :
    (chainConfigs idx l).length = l.length - 1 := by
  induction l generalizing idx with
  | nil => rfl
  | cons a l ih =>
    cases l with
    | nil => rfl
    | cons b m => simpa [chainConfigs] using ih (idx + 1)

theorem chainConfigs_getElem? (idx : Nat) (l : List Keyframe) (k : Nat)
    (h : k + 1 < l.length) :
    (chainConfigs idx l)[k]? =
      some { segment_index := idx + k
             first_frame_url := (l.getD k default).image_url
             last_frame_url := (l.getD (k + 1) default).image_url
             prompt := (l.getD (k + 1) default).prompt.getD "" } := by
  induction l generalizing idx k with
  | nil => simp at h
  | cons a l ih =>
    cases l with
    | nil => simp at h
    | cons b m =>
      cases k with
      | zero => simp [chainConfigs, List.getD]
      | succ k =>
        have := ih (idx + 1) k (by simpa using h)
        simpa [chainConfigs, List.getD, Nat.add_assoc, Nat.add_comm 1 k] using this

/-- C1: claimed — after a failed keyframe the next call gets no reference.
Counterexample: with call results `[some "u0", none, some "u2"]` (frame 0
succeeds with url `u0`, frame 1 fails), the reference passed to call 2 is
`some "u0"`, the last earlier success, not `none`. -/
theorem C1_counterexample :
    referencesPassed none [some "u0", none, some "u2"]
      = [none, some "u0", some "u0"] ∧
    (some "u0" : Option String) ≠ none := by
  exact ⟨rfl, by decide⟩

/-- C1 (amended): keyframes are visited strictly sequentially in creation
order — every call is still invoked after a failure — and the reference
passed to call `i` is the most recent earlier truthy result (`none` only
when no earlier call succeeded), not `none` after every failure. -/
theorem C1_theorem (results : List (Option String)) (i : Nat)
    (h : i < results.length) :
    (referencesPassed none results).length = results.length ∧
    (referencesPassed none results)[i]? = some (lastSuccess none (results.take i)) :=
  ⟨referencesPassed_length none results,
   referencesPassed_getElem? none results i h⟩

/-- Witness for C1_theorem at the counterexample input. -/
theorem C1_witness :
    (referencesPassed none [some "u0", none, some "u2"]).length
        = ([some "u0", none, some "u2"] : List (Option String)).length ∧
    (referencesPassed none [some "u0", none, some "u2"])[2]?
        = some (lastSuccess none ([some "u0", none, some "u2"].take 2)) :=
  C1_theorem [some "u0", none, some "u2"] 2 (by decide)

/-- C4: claimed for keyframes and video segments alike.  Counterexample for
the video half: a `generating` video segment whose `updated_at` (0) is older
than the staleness threshold at a read at time 1000000 is returned unchanged
by the list-read — `get_video_segments_by_script` contains no reaper at all. -/
theorem C4_counterexample :
    STALE_KEYFRAME_TIMEOUT < 1000000 - 0 ∧
    get_video_segments_by_script [staleVideoRow] = [staleVideoRow] ∧
    staleVideoRow.status = .generating ∧
    staleVideoRow.status ≠ .failed := by
  refine ⟨by decide, rfl, rfl, by decide⟩

/-- C4 (amended): the lazy reaper exists only on the keyframe list-read: a
`generating` keyframe older than the 5-minute threshold transitions to
`failed` with the timeout message, one within the threshold is unchanged;
the video-segment list-read merely orders rows and returns every stored row
unmodified. -/
theorem C4_theorem (now t : Nat) (kf : Keyframe) (kfs : List Keyframe)
    (rows : List VideoSegment)
    (hst : kf.status = .generating) (hup : kf.updated_at = some t) :
    (STALE_KEYFRAME_TIMEOUT < now - t →
       refreshStaleKeyframe now kf =
         { kf with status := .failed,
                   error_message := some "生成超时，请重新生成关键帧" }) ∧
    (¬ STALE_KEYFRAME_TIMEOUT < now - t → refreshStaleKeyframe now kf = kf) ∧
    get_keyframes_by_script_id now kfs = kfs.map (refreshStaleKeyframe now) ∧
    (∀ vs ∈ get_video_segments_by_script rows, vs ∈ rows) := by
  refine ⟨?_, ?_, rfl, ?_⟩
  · intro hlt
    simp [refreshStaleKeyframe, hst, hup, hlt]
  · intro hlt
    simp [refreshStaleKeyframe, hst, hup, hlt]
  · intro vs hvs
    exact (List.mem_insertionSort _).mp hvs

/-- Witness for C4_theorem: a keyframe list-read at time 301 reaps the
`generating` row last updated at time 0, while the video list-read returns
its equally stale row as stored. -/
theorem C4_witness :
    (STALE_KEYFRAME_TIMEOUT < 301 - 0 →
       refreshStaleKeyframe 301 staleKeyframeRow =
         { staleKeyframeRow with status := .failed,
                                 error_message := some "生成超时，请重新生成关键帧" }) ∧
    (¬ STALE_KEYFRAME_TIMEOUT < 301 - 0 →
       refreshStaleKeyframe 301 staleKeyframeRow = staleKeyframeRow) ∧
    get_keyframes_by_script_id 301 [staleKeyframeRow]
        = [staleKeyframeRow].map (refreshStaleKeyframe 301) ∧
    (∀ vs ∈ get_video_segments_by_script [staleVideoRow], vs ∈ [staleVideoRow]) :=
  C4_theorem 301 0 staleKeyframeRow [staleKeyframeRow] [staleVideoRow] rfl rfl

/-- C5: claimed — on the synchronous ValidationError the pre-existing video
segments survive because validation precedes deletion.  Counterexample: with
no completed keyframes and one stored segment, `generate_videos` raises the
ValidationError and the store is already empty — the delete-and-commit runs
before the keyframe SELECT. -/
theorem C5_counterexample :
    (generate_videos true 1 [] [oldVideoRow] "veo3.1-fast" "16:9" 6).1
        = .error (.validation "脚本没有已完成的关键帧") ∧
    (generate_videos true 1 [] [oldVideoRow] "veo3.1-fast" "16:9" 6).2 = [] ∧
    [oldVideoRow] ≠ ([] : List VideoSegment) := by
  refine ⟨rfl, rfl, by decide⟩

/-- C5 (amended): the ValidationError is still synchronous and generation
never starts, but the deletion of the script's existing video segments runs
before the completed keyframes are loaded and validated, so on the error the
pre-existing rows are already gone. -/
theorem C5_theorem (script_id : Nat) (kfs : List Keyframe)
    (existing : List VideoSegment) (model ar : String) (dur : Nat)
    (h : kfs.filter (fun kf => kf.status == .completed) = []) :
    (generate_videos true script_id kfs existing model ar dur).1
        = .error (.validation "脚本没有已完成的关键帧") ∧
    (generate_videos true script_id kfs existing model ar dur).2 = [] := by
  have hc : completedKeyframes kfs = [] := by
    simp [completedKeyframes, h]
  constructor <;> simp [generate_videos, hc]

/-- Witness for C5_theorem at the counterexample input. -/
theorem C5_witness :
    (generate_videos true 1 [] [oldVideoRow] "veo3.1-fast" "16:9" 6).1
        = .error (.validation "脚本没有已完成的关键帧") ∧
    (generate_videos true 1 [] [oldVideoRow] "veo3.1-fast" "16:9" 6).2 = [] :=
  C5_theorem 1 [] [oldVideoRow] "veo3.1-fast" "16:9" 6 rfl

/-- C6: claimed — missing opening frame with completed body keyframes raises
NotFoundError.  Counterexample: one completed body keyframe and no opening
frame raises `ValidationError('缺少首帧关键帧: segment_0_first_frame')`,
which is not a NotFoundError. -/
theorem C6_counterexample :
    (generate_videos true 1 [bodyOnlyKeyframe] [] "veo3.1-fast" "16:9" 6).1
        = .error (.validation "缺少首帧关键帧: segment_0_first_frame") ∧
    AppError.isNotFound (.validation "缺少首帧关键帧: segment_0_first_frame") = false := by
  refine ⟨rfl, rfl⟩

/-- C6 (amended): both degenerate inputs raise ValidationError — the missing
opening frame raises `ValidationError('缺少首帧关键帧: ...')` (NotFoundError
is reserved for a missing script row), and the no-completed-keyframes case
raises ValidationError as the claim says. -/
theorem C6_theorem (script_id : Nat) (kfs kfs2 : List Keyframe)
    (existing : List VideoSegment) (model ar : String) (dur : Nat)
    (first : Keyframe) (rest : List Keyframe)
    (hbody : (completedKeyframes kfs).filter isNormalKeyframe = first :: rest)
    (hmiss : keyframeMapLookup (completedKeyframes kfs)
               (first.segment_id ++ "_first_frame") = none)
    (h2 : kfs2.filter (fun kf => kf.status == .completed) = []) :
    (generate_videos true script_id kfs existing model ar dur).1
        = .error (.validation ("缺少首帧关键帧: " ++ first.segment_id ++ "_first_frame")) ∧
    AppError.isNotFound
        (.validation ("缺少首帧关键帧: " ++ first.segment_id ++ "_first_frame")) = false ∧
    (generate_videos true script_id kfs2 existing model ar dur).1
        = .error (.validation "脚本没有已完成的关键帧") := by
  have hne : completedKeyframes kfs ≠ [] := by
    intro hnil
    rw [hnil] at hbody
    simp at hbody
  have hc2 : completedKeyframes kfs2 = [] := by
    simp [completedKeyframes, h2]
  refine ⟨?_, rfl, by simp [generate_videos, hc2]⟩
  simp only [generate_videos, Bool.not_true, Bool.false_eq_true, if_false,
    List.isEmpty_iff, buildVideoConfigs, hbody, hmiss]
  simp [hne, String.append_assoc]

/-- Witness for C6_theorem at the counterexample input. -/
theorem C6_witness :
    (generate_videos true 1 [bodyOnlyKeyframe] [] "veo3.1-fast" "16:9" 6).1
        = .error (.validation ("缺少首帧关键帧: " ++ "segment_0" ++ "_first_frame")) ∧
    AppError.isNotFound
        (.validation ("缺少首帧关键帧: " ++ "segment_0" ++ "_first_frame")) = false ∧
    (generate_videos true 1 [] [] "veo3.1-fast" "16:9" 6).1
        = .error (.validation "脚本没有已完成的关键帧") :=
  C6_theorem 1 [bodyOnlyKeyframe] [] [] "veo3.1-fast" "16:9" 6 bodyOnlyKeyframe []
    (by decide) (by decide) rfl

theorem buildVideoConfigs_ok (completed : List Keyframe) (b0 : Keyframe)
    (brest : List Keyframe) (opening : Keyframe)
    (hbody : completed.filter isNormalKeyframe = b0 :: brest)
    (hff : keyframeMapLookup completed (b0.segment_id ++ "_first_frame") = some opening) :
    buildVideoConfigs completed =
      .ok ({ segment_index := 0, first_frame_url := opening.image_url,
             last_frame_url := b0.image_url,
             prompt := b0.prompt.getD "" } :: chainConfigs 1 (b0 :: brest)) := by
  simp only [buildVideoConfigs, hbody, hff]

theorem generate_videos_ok (script_id : Nat) (kfs : List Keyframe)
    (existing : List VideoSegment) (model ar : String) (dur : Nat)
    (configs : List VideoConfig)
    (hne : completedKeyframes kfs ≠ [])
    (hcf : buildVideoConfigs (completedKeyframes kfs) = .ok configs) :
    generate_videos true script_id kfs existing model ar dur
      = (.ok (configs.map (mkVideoRow script_id model ar dur)),
         configs.map (mkVideoRow script_id model ar dur)) := by
  simp only [generate_videos, Bool.not_true, Bool.false_eq_true, if_false, hcf]
  simp [List.isEmpty_iff, hne]

theorem chainConfigs_getElem?_pair (idx : Nat) (l : List Keyframe) (k : Nat)
    (bk bk1 : Keyframe) (hk : l[k]? = some bk) (hk1 : l[k + 1]? = some bk1) :
    (chainConfigs idx l)[k]? =
      some { segment_index := idx + k, first_frame_url := bk.image_url,
             last_frame_url := bk1.image_url, prompt := bk1.prompt.getD "" } := by
  have hlt : k + 1 < l.length := (List.getElem?_eq_some.mp hk1).1
  rw [chainConfigs_getElem? idx l k hlt]
  have e1 : l.getD k default = bk := by
    rw [List.getD_eq_getElem?_getD, hk]; rfl
  have e2 : l.getD (k + 1) default = bk1 := by
    rw [List.getD_eq_getElem?_getD, hk1]; rfl
  rw [e1, e2]

/-- C2: for a script whose completed keyframes hold an opening-frame keyframe
and N ordered body keyframes, video generation creates exactly N rows in
`generating` state with `segment_index` 0..N-1; row 0 bridges
opening→body[0], row i (i≥1) bridges body[i-1]→body[i]; each row's prompt is
the destination keyframe's prompt. -/
theorem C2_theorem (script_id : Nat) (kfs : List Keyframe)
    (existing : List VideoSegment) (model ar : String) (dur : Nat)
    (b0 : Keyframe) (brest : List Keyframe) (opening : Keyframe)
    (hbody : (completedKeyframes kfs).filter isNormalKeyframe = b0 :: brest)
    (hff : keyframeMapLookup (completedKeyframes kfs)
             (b0.segment_id ++ "_first_frame") = some opening) :
    ∃ rows : List VideoSegment,
      generate_videos true script_id kfs existing model ar dur = (.ok rows, rows) ∧
      rows.length = (b0 :: brest).length ∧
      (∀ k bk, (b0 :: brest)[k]? = some bk →
        ∃ row, rows[k]? = some row ∧
          row.segment_index = k ∧
          row.status = .generating ∧
          row.last_frame_url = bk.image_url ∧
          row.prompt = some (bk.prompt.getD "") ∧
          (∀ p, bk.prompt = some p → row.prompt = some p) ∧
          (k = 0 → row.first_frame_url = opening.image_url) ∧
          (∀ j bj, k = j + 1 → (b0 :: brest)[j]? = some bj →
            row.first_frame_url = bj.image_url)) := by
  have hne : completedKeyframes kfs ≠ [] := by
    intro hnil; rw [hnil] at hbody; simp at hbody
  set cfg0 : VideoConfig :=
    { segment_index := 0, first_frame_url := opening.image_url,
      last_frame_url := b0.image_url, prompt := b0.prompt.getD "" } with hcfg0
  set configs := cfg0 :: chainConfigs 1 (b0 :: brest) with hconfigs
  have hcf : buildVideoConfigs (completedKeyframes kfs) = .ok configs :=
    buildVideoConfigs_ok _ _ _ _ hbody hff
  refine ⟨configs.map (mkVideoRow script_id model ar dur),
    generate_videos_ok script_id kfs existing model ar dur configs hne hcf, ?_, ?_⟩
  · simp [hconfigs, chainConfigs_length]
  · intro k bk hk
    have hklt : k < brest.length + 1 := by
      simpa using (List.getElem?_eq_some.mp hk).1
    have hcfg : ∃ c, configs[k]? = some c ∧
        c.segment_index = k ∧
        c.last_frame_url = bk.image_url ∧
        c.prompt = bk.prompt.getD "" ∧
        (k = 0 → c.first_frame_url = opening.image_url) ∧
        (∀ j bj, k = j + 1 → (b0 :: brest)[j]? = some bj →
          c.first_frame_url = bj.image_url) := by
      cases k with
      | zero =>
        have hb : bk = b0 := by
          have h0 : b0 = bk := by simpa using hk
          exact h0.symm
        subst hb
        refine ⟨cfg0, by simp [hconfigs], rfl, rfl, rfl, fun _ => rfl, ?_⟩
        intro j bj hj hbj
        omega
      | succ j =>
        have hj : (b0 :: brest)[j]? = some ((b0 :: brest).getD j default) := by
          rw [List.getD_eq_getElem?_getD]
          cases hjj : (b0 :: brest)[j]? with
          | none =>
            have := List.getElem?_eq_none_iff.mp hjj
            simp at this
            omega
          | some x => rfl
        refine ⟨{ segment_index := 1 + j,
                  first_frame_url := ((b0 :: brest).getD j default).image_url,
                  last_frame_url := bk.image_url,
                  prompt := bk.prompt.getD "" }, ?_, ?_, rfl, rfl, ?_, ?_⟩
        · show configs[j + 1]? = _
          rw [hconfigs]
          simp only [List.getElem?_cons_succ]
          exact chainConfigs_getElem?_pair 1 (b0 :: brest) j _ bk hj hk
        · show 1 + j = j + 1
          omega
        · intro h0
          omega
        · intro j' bj hj' hbj
          have hjj' : j = j' := by omega
          subst hjj'
          rw [hj] at hbj
          simp only [Option.some_inj] at hbj
          rw [hbj]
    obtain ⟨c, hc, hcidx, hclast, hcprompt, hcf0, hcfj⟩ := hcfg
    refine ⟨mkVideoRow script_id model ar dur c, ?_, ?_, rfl, ?_, ?_, ?_, ?_, ?_⟩
    · rw [List.getElem?_map, hc]; rfl
    · simpa [mkVideoRow] using hcidx
    · simpa [mkVideoRow] using hclast
    · simp [mkVideoRow, hcprompt]
    · intro p hp
      simp [mkVideoRow, hcprompt, hp]
    · intro h0
      simp [mkVideoRow, hcf0 h0]
    · intro j bj hj hbj
      simp [mkVideoRow, hcfj j bj hj hbj]

/-- Witness for C2_theorem: opening plus two body keyframes, stored unsorted. -/
theorem C2_witness :
    ∃ rows : List VideoSegment,
      generate_videos true 1 [kfBody1, kfOpening, kfBody0] [] "veo3.1-fast" "16:9" 6
        = (.ok rows, rows) ∧
      rows.length = ([kfBody0, kfBody1] : List Keyframe).length ∧
      (∀ k bk, ([kfBody0, kfBody1] : List Keyframe)[k]? = some bk →
        ∃ row, rows[k]? = some row ∧
          row.segment_index = k ∧
          row.status = .generating ∧
          row.last_frame_url = bk.image_url ∧
          row.prompt = some (bk.prompt.getD "") ∧
          (∀ p, bk.prompt = some p → row.prompt = some p) ∧
          (k = 0 → row.first_frame_url = kfOpening.image_url) ∧
          (∀ j bj, k = j + 1 → ([kfBody0, kfBody1] : List Keyframe)[j]? = some bj →
            row.first_frame_url = bj.image_url)) :=
  C2_theorem 1 [kfBody1, kfOpening, kfBody0] [] "veo3.1-fast" "16:9" 6
    kfBody0 [kfBody1] kfOpening (by decide) (by decide)

/-- C3: a script parsing into an opening frame plus K body segments yields
exactly K+1 keyframe rows — the opening-frame row first, with derived id
`<first body segment id>_first_frame` and the frame-0 content as prompt,
then one row per body segment in parse (ascending) order. -/
theorem C3_theorem (content : String) (f0 n0 : ScriptSegment)
    (ns : List ScriptSegment)
    (hc : content ≠ "")
    (hnormal : (parse_script content).filter (fun s => !s.is_frame_0) = n0 :: ns)
    (hf0 : (parse_script content).find? (fun s => s.is_frame_0) = some f0) :
    ∃ rows : List KeyframeNew,
      generate_keyframes content = .ok rows ∧
      rows.length = (n0 :: ns).length + 1 ∧
      rows = { segment_id := n0.segment_id ++ "_first_frame", prompt := f0.content,
               status := .generating }
          :: (n0 :: ns).map (fun s =>
               { segment_id := s.segment_id, prompt := s.content,
                 status := KeyframeStatus.generating }) := by
  have hmem := List.mem_of_find?_eq_some hf0
  have hne : parse_script content ≠ [] := by
    intro h
    rw [h] at hmem
    simp at hmem
  refine ⟨_, ?_, by simp, rfl⟩
  simp only [generate_keyframes, if_neg hc, hnormal, hf0]
  simp [List.isEmpty_iff, hne]

/-- Witness for C3_theorem on a two-body-segment script with a frame-0 line. -/
theorem C3_witness :
    ∃ rows : List KeyframeNew,
      generate_keyframes "第0帧: open scene\n(0:00 - 0:05) alpha\n(0:06 - 0:12) beta"
        = .ok rows ∧
      rows.length =
        ([{ segment_id := "segment_0", time_range := "0:00 - 0:05", content := "alpha",
            is_first := true },
          { segment_id := "segment_1", time_range := "0:06 - 0:12", content := "beta",
            is_last := true }] : List ScriptSegment).length + 1 ∧
      rows = { segment_id := "segment_0" ++ "_first_frame", prompt := "open scene",
               status := .generating }
          :: ([{ segment_id := "segment_0", time_range := "0:00 - 0:05", content := "alpha",
                 is_first := true },
               { segment_id := "segment_1", time_range := "0:06 - 0:12", content := "beta",
                 is_last := true }] : List ScriptSegment).map (fun s =>
               { segment_id := s.segment_id, prompt := s.content,
                 status := KeyframeStatus.generating }) :=
  C3_theorem "第0帧: open scene\n(0:00 - 0:05) alpha\n(0:06 - 0:12) beta"
    { segment_id := "frame_0", time_range := "0:00 - 0:00", content := "open scene",
      is_frame_0 := true }
    { segment_id := "segment_0", time_range := "0:00 - 0:05", content := "alpha",
      is_first := true }
    [{ segment_id := "segment_1", time_range := "0:06 - 0:12", content := "beta",
       is_last := true }]
    (by decide) (by decide) (by decide)

/-- C7: claimed — with zero timestamped paragraphs the text is split
line-by-line, one segment per line.  Counterexample: a two-line script with
no timestamps parses to a single segment holding the whole text, not two. -/
theorem C7_counterexample :
    parse_script "line1\nline2"
      = [{ segment_id := "segment_0", time_range := "", content := "line1\nline2",
           is_first := true, is_last := true }] ∧
    (parse_script "line1\nline2").length = 1 := ⟨rfl, rfl⟩

/-- C7 (amended): when the script is non-blank, no time pattern matches and
no opening-frame marker matches, the whole stripped text becomes one single
fallback segment `segment_0` (not one segment per line). -/
theorem C7_theorem (content : String)
    (hne : (pyStrip content).isEmpty = false)
    (hnm : findTimeMatches content = [])
    (hf0 : findFrame0 content = none) :
    parse_script content
      = [{ segment_id := "segment_0", time_range := "", content := pyStrip content,
           is_first := true, is_last := true }] := by
  simp [parse_script, hnm, hf0, hne]

/-- Witness for C7_theorem on the counterexample input. -/
theorem C7_witness :
    parse_script "line1\nline2"
      = [{ segment_id := "segment_0", time_range := "",
           content := pyStrip "line1\nline2",
           is_first := true, is_last := true }] :=
  C7_theorem "line1\nline2" (by decide) (by decide) (by decide)

/-- C8: every image/video poll loop reads at most 60 poll answers (loops over
oracles that agree on polls 0..59 return the same result), a run with no
terminal answer among those 60 ends in the vendor timeout error, and any
`.error` outcome — explicit failure and timeout alike — is persisted as the
entity's `failed` terminal state. -/
theorem C8_theorem (f g : Nat → PollResponse) (kf : Keyframe) (vs : VideoSegment)
    (e : String)
    (hagree : ∀ j, j < 60 → f j = g j)
    (hpend : ∀ j, j < 60 → (f j).nonTerminal) :
    (generate_image_nano_banana_poll f = generate_image_nano_banana_poll g ∧
     call_veo_api_poll f = call_veo_api_poll g ∧
     call_sora_api_poll f = call_sora_api_poll g) ∧
    (generate_image_nano_banana_poll f = .error "图片生成超时" ∧
     call_veo_api_poll f = .error "视频生成超时" ∧
     call_sora_api_poll f = .error "视频生成超时") ∧
    (finishKeyframe kf (.error e)).status = .failed ∧
    (finishVideoSegment vs (.error e)).status = .failed := by
  refine ⟨⟨?_, ?_, ?_⟩, ⟨?_, ?_, ?_⟩, rfl, rfl⟩
  · exact nanoBananaPollLoop_congr f g 60 0 (fun j _ h2 => hagree j (by omega))
  · exact veoPollLoop_congr f g 60 0 (fun j _ h2 => hagree j (by omega))
  · exact soraPollLoop_congr f g 60 0 (fun j _ h2 => hagree j (by omega))
  · exact nanoBananaPollLoop_timeout f 60 0 (fun j _ h2 => hpend j (by omega))
  · exact veoPollLoop_timeout f 60 0 (fun j _ h2 => hpend j (by omega))
  · exact soraPollLoop_timeout f 60 0 (fun j _ h2 => hpend j (by omega))

theorem pendingOracle_nonTerminal (j : Nat) : (pendingOracle j).nonTerminal :=
  ⟨rfl, by show ("" : String) ≠ "succeeded"; decide,
   by show ("" : String) ≠ "failed"; decide⟩

/-- Witness for C8_theorem with an oracle answering `pending`-style responses
forever. -/
theorem C8_witness :
    ((generate_image_nano_banana_poll pendingOracle
        = generate_image_nano_banana_poll pendingOracle ∧
      call_veo_api_poll pendingOracle = call_veo_api_poll pendingOracle ∧
      call_sora_api_poll pendingOracle = call_sora_api_poll pendingOracle) ∧
     (generate_image_nano_banana_poll pendingOracle = .error "图片生成超时" ∧
      call_veo_api_poll pendingOracle = .error "视频生成超时" ∧
      call_sora_api_poll pendingOracle = .error "视频生成超时") ∧
     (finishKeyframe staleKeyframeRow (.error "视频生成失败: boom")).status = .failed ∧
     (finishVideoSegment staleVideoRow (.error "视频生成失败: boom")).status = .failed) :=
  C8_theorem pendingOracle pendingOracle staleKeyframeRow staleVideoRow
    "视频生成失败: boom" (fun _ _ => rfl)
    (fun j _ => pendingOracle_nonTerminal j)

theorem lexLe_cons_iff (a b : Char) (as bs : List Char) :
    lexLe (a :: as) (b :: bs) = true ↔
      a.toNat < b.toNat ∨ (a.toNat = b.toNat ∧ lexLe as bs = true) := by
  simp only [lexLe]
  split_ifs with h1 h2
  · simp [h1]
  · simp
    constructor
    · omega
    · omega
  · have heq : a.toNat = b.toNat := by omega
    simp [h1, heq]

theorem lexLe_total (as : List Char) : ∀ bs, lexLe as bs = true ∨ lexLe bs as = true := by
  induction as with
  | nil => intro bs; left; rfl
  | cons a as ih =>
    intro bs
    cases bs with
    | nil => right; rfl
    | cons b bs =>
      rcases Nat.lt_trichotomy a.toNat b.toNat with h | h | h
      · left; rw [lexLe_cons_iff]; exact Or.inl h
      · cases ih bs with
        | inl h2 => left; rw [lexLe_cons_iff]; exact Or.inr ⟨h, h2⟩
        | inr h2 => right; rw [lexLe_cons_iff]; exact Or.inr ⟨h.symm, h2⟩
      · right; rw [lexLe_cons_iff]; exact Or.inl h

theorem lexLe_trans (as : List Char) : ∀ bs cs,
    lexLe as bs = true → lexLe bs cs = true → lexLe as cs = true := by
  induction as with
  | nil => intro bs cs _ _; rfl
  | cons a as ih =>
    intro bs cs h1 h2
    cases bs with
    | nil => simp [lexLe] at h1
    | cons b bs =>
      cases cs with
      | nil => simp [lexLe] at h2
      | cons c cs =>
        rw [lexLe_cons_iff] at h1 h2 ⊢
        rcases h1 with h1 | ⟨h1e, h1r⟩
        · rcases h2 with h2 | ⟨h2e, _⟩
          · exact Or.inl (by omega)
          · exact Or.inl (by omega)
        · rcases h2 with h2 | ⟨h2e, h2r⟩
          · exact Or.inl (by omega)
          · exact Or.inr ⟨by omega, ih bs cs h1r h2r⟩

theorem completedKeyframes_sorted (kfs : List Keyframe) :
    (completedKeyframes kfs).Sorted
      (fun a b => strLe a.segment_id b.segment_id = true) := by
  have htot : IsTotal Keyframe (fun a b => strLe a.segment_id b.segment_id = true) :=
    ⟨fun a b => lexLe_total _ _⟩
  have htrans : IsTrans Keyframe (fun a b => strLe a.segment_id b.segment_id = true) :=
    ⟨fun a b c h1 h2 => lexLe_trans _ _ _ h1 h2⟩
  exact @List.sorted_insertionSort Keyframe _ _ htot htrans _

/-- C9: the keyframes feeding video generation are ordered by the string
value of `segment_id` — `ORDER BY segment_id` on a string column, embedded
as a sort under `strLe` — so `"segment_10"` sorts before `"segment_2"`, and
with eleven body keyframes the chain pairs `segment_1 → segment_10` and
`segment_10 → segment_2`, differing from numeric playback order. -/
theorem C9_theorem :
    (∀ kfs : List Keyframe,
       (completedKeyframes kfs).Sorted
         (fun a b => strLe a.segment_id b.segment_id = true)) ∧
    strLe "segment_10" "segment_2" = true ∧
    strLe "segment_2" "segment_10" = false ∧
    ((completedKeyframes elevenSegmentStore).filter isNormalKeyframe).map
        (fun kf => kf.segment_id)
      = ["segment_0", "segment_1", "segment_10", "segment_2", "segment_3",
         "segment_4", "segment_5", "segment_6", "segment_7", "segment_8",
         "segment_9"] ∧
    (generate_videos true 1 elevenSegmentStore [] "veo3.1-fast" "16:9" 6).2.map
        (fun r => r.last_frame_url)
      = [some "u0", some "u1", some "u10", some "u2", some "u3", some "u4",
         some "u5", some "u6", some "u7", some "u8", some "u9"] ∧
    (generate_videos true 1 elevenSegmentStore [] "veo3.1-fast" "16:9" 6).2.map
        (fun r => r.first_frame_url)
      = [some "uf", some "u0", some "u1", some "u10", some "u2", some "u3",
         some "u4", some "u5", some "u6", some "u7", some "u8"] := by
  refine ⟨completedKeyframes_sorted, by decide, by decide, by decide, by decide, by decide⟩

/-- A model name starting with `veo` cannot also start with `sora`. -/
theorem not_sora_of_veo (model : String) (hv : strStartsWith model "veo" = true) :
    strStartsWith model "sora" = false := by
  cases model with
  | mk data =>
    cases data with
    | nil => simp [strStartsWith, List.isPrefixOf] at hv
    | cons c cs =>
      simp only [strStartsWith] at hv ⊢
      simp [List.isPrefixOf] at hv
      obtain ⟨hc, -⟩ := hv
      subst hc
      simp [List.isPrefixOf]

/-- C10: the vendor dispatch keys on the model-name text: a `sora*` model
submits only the segment's last-frame url as the single reference (the sora
payload has no first-frame field and ignores `first_frame_url` entirely), a
`veo*` model submits both frame urls, and any other model name raises, which
`finishVideoSegment` records as the `failed` terminal state. -/
theorem C10_theorem (model prompt : String) (first last2 : Option String)
    (ar : String) (dur : Nat) (vs : VideoSegment) :
    (strStartsWith model "sora" = true →
       call_video_generation_api true model prompt first last2 ar dur
         = .ok (.sora model prompt ar dur (payloadField last2)) ∧
       (∀ first2 : Option String,
          call_video_generation_api true model prompt first2 last2 ar dur
            = call_video_generation_api true model prompt first last2 ar dur)) ∧
    (strStartsWith model "veo" = true →
       call_video_generation_api true model prompt first last2 ar dur
         = .ok (.veo model prompt ar (payloadField first) (payloadField last2))) ∧
    (strStartsWith model "sora" = false → strStartsWith model "veo" = false →
       call_video_generation_api true model prompt first last2 ar dur
         = .error ("不支持的模型: " ++ model) ∧
       (finishVideoSegment vs (.error ("不支持的模型: " ++ model))).status
         = .failed) := by
  refine ⟨?_, ?_, ?_⟩
  · intro hs
    constructor
    · simp [call_video_generation_api, hs]
    · intro first2
      simp [call_video_generation_api, hs]
  · intro hv
    have hs : strStartsWith model "sora" = false := not_sora_of_veo model hv
    simp [call_video_generation_api, hs, hv]
  · intro hs hv
    exact ⟨by simp [call_video_generation_api, hs, hv], rfl⟩

/-- Witness for C10_theorem at the models `sora-2`, `veo3.1-fast` and
`kling-1`. -/
theorem C10_witness :
    (call_video_generation_api true "sora-2" "p" (some "f.png") (some "l.png") "16:9" 6
       = .ok (.sora "sora-2" "p" "16:9" 6 (payloadField (some "l.png"))) ∧
     (∀ first2 : Option String,
        call_video_generation_api true "sora-2" "p" first2 (some "l.png") "16:9" 6
          = call_video_generation_api true "sora-2" "p" (some "f.png") (some "l.png") "16:9" 6)) ∧
    call_video_generation_api true "veo3.1-fast" "p" (some "f.png") (some "l.png") "16:9" 6
      = .ok (.veo "veo3.1-fast" "p" "16:9" (payloadField (some "f.png"))
              (payloadField (some "l.png"))) ∧
    (call_video_generation_api true "kling-1" "p" (some "f.png") (some "l.png") "16:9" 6
       = .error ("不支持的模型: " ++ "kling-1") ∧
     (finishVideoSegment staleVideoRow
        (.error ("不支持的模型: " ++ "kling-1"))).status = .failed) :=
  ⟨ ( C10_theorem "sora-2" "p" (some "f.png") (some "l.png") "16:9" 6 staleVideoRow).1
      (by decide),
   ( C10_theorem "veo3.1-fast" "p" (some "f.png") (some "l.png") "16:9" 6 staleVideoRow).2.1
      (by decide),
   ( C10_theorem "kling-1" "p" (some "f.png") (some "l.png") "16:9" 6 staleVideoRow).2.2
      (by decide) (by decide)⟩
